import Mathlib

/-!
Shallow embedding of the remote file-operations client of the
jupyterhub-file-explorer repository (the `FileExplorerProvider` class of the
main source file, second copy, lines 542-2316).

Conventions of the embedding:
* JavaScript `Map` objects are modelled as association lists in insertion
  order (`mapGet` / `mapSet` / `mapDelete` below mirror `Map.get`,
  `Map.set` — which keeps the position of an existing key — and
  `Map.delete`).
* Timestamps (`Date.now()`) are explicit `Int` parameters; real-time waits
  (`setTimeout`) are recorded in a trace instead of being performed.
* `requestDelay` arithmetic (`* 1.5`, `* 0.95`) is carried out in `ℚ`;
  the JavaScript source uses IEEE doubles, whose rounding is irrelevant to
  the ordering and bound facts proved here.
* The axios instance is created with `validateStatus: (status) => status < 500`,
  so a network reply rejects the promise exactly when its status is ≥ 500;
  replies with status < 500 (including 4xx) resolve successfully.  Network
  level failures (timeout, DNS) reject with an error code and no response.
* The remote server is modelled as a function from the request history
  (number of previously issued requests) and the request to a network result,
  so a server may answer the same request differently across retries.
-/

namespace JfeModel

/-- HTTP method of a request issued through the axios instance. -/
inductive Method where
  | get
  | put
  | patch
  | delete
deriving DecidableEq, Repr

/-- Listing entry of a `GET api/contents/{dir}` reply (`item.name`,
`item.path`, `item.type` are the fields the source reads). -/
structure Entry where
  name : String
  path : String
  type : String
deriving DecidableEq, Repr

/-- Relevant fields of a response body (`response.data`): `type` (stat),
`content` (directory listing) and `message` (error bodies).  Absent fields
of the dynamic JavaScript value are `none`. -/
structure Body where
  type? : Option String := none
  content? : Option (List Entry) := none
  message? : Option String := none
deriving DecidableEq, Repr

/-- Resolved axios response.  A genuine network reply carries `some` status;
the synthetic `{ data: cached }` object returned on a cache hit carries no
status field (JavaScript `undefined`). -/
structure Resp where
  status? : Option Nat := none
  data : Body := {}
deriving DecidableEq, Repr

/-- Behaviour of the remote endpoint for one request: an HTTP reply with a
status and a body, or a network-level failure with an error code such as
`ECONNABORTED`. -/
inductive NetResult where
  | reply (status : Nat) (body : Body)
  | netError (code : String)
deriving DecidableEq, Repr

/-- Request issued through the axios instance. -/
structure Req where
  method : Method
  url : String
deriving DecidableEq, Repr

/-- Server model: the network result may depend on how many requests were
issued before (so retries can observe different answers). -/
def Server : Type := Nat → Req → NetResult

/-- Rejected-promise value (`error` in a catch block): an axios error with
an optional response status, optional `response.data.message` and optional
transport error code, or a plain `new Error(message)`. -/
inductive JsError where
  | axios (status? : Option Nat) (dataMessage? : Option String) (code? : Option String)
  | plain (message : String)
deriving DecidableEq, Repr

/-- Observable trace of a run: the requests issued (in order) and the
explicit `setTimeout` waits performed (in ms, in order). -/
structure Trace where
  reqs : List Req := []
  sleeps : List Nat := []
deriving DecidableEq, Repr

/-- Record of an explicit `setTimeout` wait. -/
def Trace.sleep (tr : Trace) (ms : Nat) : Trace :=
  { tr with sleeps := tr.sleeps ++ [ms] }

/-- One request through the axios instance: appends the request to the
trace and converts the network result per
`validateStatus: (status) => status < 500` — replies under 500 resolve,
replies at 500 and above reject with an axios error carrying the status and
the body message, network failures reject with the error code. -/
def axiosRequest (server : Server) (m : Method) (url : String) (tr : Trace) :
    Except JsError Resp × Trace :=
  let req : Req := ⟨m, url⟩
  let tr' := { tr with reqs := tr.reqs ++ [req] }
  match server tr.reqs.length req with
  | .reply status body =>
      if status < 500 then (.ok ⟨some status, body⟩, tr')
      else (.error (.axios (some status) body.message? none), tr')
  | .netError code => (.error (.axios none none (some code)), tr')

/-! JavaScript string primitives, implemented on the character list of the
string so that the kernel can evaluate them on concrete inputs (the
byte-position based implementations of core `String` functions do not
reduce inside the kernel). -/

/-- Decides whether the first list is a prefix of the second. -/
def listLeads : List Char → List Char → Bool
  | [], _ => true
  | _ :: _, [] => false
  | p :: ps, c :: cs => p = c && listLeads ps cs

/-- JavaScript `String.prototype.startsWith`. -/
def jsStartsWith (s pre : String) : Bool :=
  listLeads pre.data s.data

/-- JavaScript `String.prototype.endsWith`. -/
def jsEndsWith (s suf : String) : Bool :=
  listLeads suf.data.reverse s.data.reverse

/-- JavaScript `substring(n)` / slice from character index `n`. -/
def strDrop (s : String) (n : Nat) : String :=
  String.mk (s.data.drop n)

/-- JavaScript `slice(0, -1)`: drop the final character. -/
def strDropLast (s : String) : String :=
  String.mk s.data.dropLast

/-- Decides whether `pat` occurs as a contiguous sublist. -/
def listContainsSub (pat : List Char) : List Char → Bool
  | [] => pat.isEmpty
  | c :: rest => listLeads pat (c :: rest) || listContainsSub pat rest

/-- JavaScript `String.prototype.includes`. -/
def jsIncludes (s sub : String) : Bool :=
  listContainsSub sub.data s.data

/-- Replacement of the first occurrence of `pat` (non-empty) in a character
list, leaving the remainder untouched. -/
def replaceFirstAux (pat rep : List Char) : List Char → List Char
  | [] => []
  | c :: rest =>
      if pat ≠ [] && listLeads pat (c :: rest) then rep ++ (c :: rest).drop pat.length
      else c :: replaceFirstAux pat rep rest

/-- JavaScript `String.prototype.replace` with a string pattern replaces the
first occurrence only (used as `.replace('//', '/')` in the source). -/
def jsReplaceOnce (s pat rep : String) : String :=
  if pat.data = [] then String.mk (rep.data ++ s.data)
  else String.mk (replaceFirstAux pat.data rep.data s.data)

/-- JavaScript `split('/')` on the character list (segments in order,
empty segments preserved, as for `"/".split('/') = ["", ""]`). -/
def splitOnSlash (l : List Char) : List (List Char) :=
  l.foldr
    (fun c acc =>
      if c = '/' then [] :: acc
      else
        match acc with
        | [] => [[c]]
        | a :: as => (c :: a) :: as)
    [[]]

/-- Joining of path segments with `/` separators (JavaScript
`parts.join('/')`). -/
def joinSlash : List String → String
  | [] => ""
  | [s] => s
  | s :: rest => s ++ "/" ++ joinSlash rest

/-- JavaScript `Map.prototype.get`. -/
def mapGet {α : Type} (k : String) : List (String × α) → Option α
  | [] => none
  | (k', v) :: rest => if k' = k then some v else mapGet k rest

/-- JavaScript `Map.prototype.set`: overwrites in place when the key exists
(keeping its insertion position), otherwise appends. -/
def mapSet {α : Type} (k : String) (v : α) : List (String × α) → List (String × α)
  | [] => [(k, v)]
  | (k', v') :: rest =>
      if k' = k then (k', v) :: rest else (k', v') :: mapSet k v rest

/-- JavaScript `Map.prototype.delete` (keys are unique in a `Map`, so
removing every occurrence agrees with removing the one entry). -/
def mapDelete {α : Type} (k : String) (l : List (String × α)) : List (String × α) :=
  l.filter (fun e => e.1 ≠ k)

/-- Source `extractParentPath` (line 1806): split on `/`, drop the last
segment, rejoin; the empty string (falsy) becomes `"/"`. -/
def extractParentPath (path : String) : String :=
  let joined := joinSlash ((splitOnSlash path.data).dropLast.map String.mk)
  if joined = "" then "/" else joined

/-- Leading-slash strip applied to `uri.path` throughout the source
(`path.startsWith('/') ? path.substring(1) : path`). -/
def stripLeadingSlash (p : String) : String :=
  if jsStartsWith p "/" then strDrop p 1 else p

/-! ### ResponseCache (`getFromCache` / `setCache`, lines 887-905) -/

/-- Source `getFromCache` (line 887): return the payload when the entry is
present and younger than `cacheTimeout`, otherwise delete the key and
report a miss.  Entries are `{ data, timestamp }` pairs. -/
def getFromCache {α : Type} (now cacheTimeout : Int) (key : String)
    (cache : List (String × α × Int)) : Option α × List (String × α × Int) :=
  match mapGet key cache with
  | some (data, ts) =>
      if now - ts < cacheTimeout then (some data, cache)
      else (none, mapDelete key cache)
  | none => (none, mapDelete key cache)

/-- Source `setCache` (line 896): when the table already holds more than the
hardcoded constant 100 entries, delete the first-inserted key (JavaScript
`keys().next().value`, guarded by its truthiness), then insert
`{ data, timestamp: Date.now() }` under the key. -/
def setCache {α : Type} (now : Int) (key : String) (data : α)
    (cache : List (String × α × Int)) : List (String × α × Int) :=
  let cache' :=
    if cache.length > 100 then
      match cache with
      | [] => ([] : List (String × α × Int))
      | (firstKey, _) :: _ => if firstKey = "" then cache else mapDelete firstKey cache
    else cache
  mapSet key (data, now) cache'

/-- Source `getCacheKey` (line 883). -/
def getCacheKey (url : String) (method : String := "GET") : String :=
  method ++ ":" ++ url

/-! ### RateLimiter (`adaptiveRateLimit`, lines 872-881) -/

/-- Source `adaptiveRateLimit` (line 872): on an error whose response status
is 429 or whose code is `ECONNABORTED`, multiply the delay by 1.5 capped at
5000; on success (`error` null) with a delay above 100, multiply by 0.95
floored at 100; otherwise leave the delay unchanged. -/
def adaptiveRateLimit (error? : Option JsError) (delay : ℚ) : ℚ :=
  match error? with
  | some e =>
      let isThrottle : Bool :=
        match e with
        | .axios status? _ code? => status? = some 429 ∨ code? = some "ECONNABORTED"
        | .plain _ => false
      if isThrottle then min (delay * 1.5) 5000 else delay
  | none => if delay > 100 then max (delay * 0.95) 100 else delay

/-- Timeout error as produced by a rejected request whose transport failed
with `ECONNABORTED`. -/
def timeoutError : JsError := .axios none none (some "ECONNABORTED")

/-- Accessor for the transport error code of a caught error
(`error.code` in the source, `undefined` for plain errors). -/
def JsError.codeOf : JsError → Option String
  | .axios _ _ code? => code?
  | .plain _ => none

/-- Rejected-response handler of the interceptor installed by
`setupAxiosInstance` (lines 754-770): when the rejected promise carries a
response with status 429, double the delay capped at 2000
(`this.requestDelay = Math.min(this.requestDelay * 2, 2000)`, line 766);
timeouts and network errors only log.  The handler runs exclusively for
rejected promises, and with `validateStatus: status < 500` a rejection
carrying a response always has status ≥ 500, so the 429 branch is
unreachable. -/
def interceptorOnRejected (error : JsError) (delay : ℚ) : ℚ :=
  match error with
  | .axios status? _ _ => if status? = some 429 then min (delay * 2) 2000 else delay
  | .plain _ => delay

/-! ### Provider connection state (`setConnection` / `disconnect`, lines 610-680) -/

/-- Mutable fields of `FileExplorerProvider` that `setConnection` and
`disconnect` touch.  The axios instance is reduced to its existence. -/
structure ProviderState where
  jupyterServerUrl : String := ""
  jupyterToken : String := ""
  remotePath : String := ""
  hasAxios : Bool := false
  isConnected : Bool := false
  lastRequestTime : Int := 0
  requestDelay : ℚ := 100
  cache : List (String × Body × Int) := []
  pendingRequests : List (String × Nat) := []
deriving DecidableEq, Repr

/-- Source `clearCache` (line 594): drops the cache and the pending table. -/
def clearCache (st : ProviderState) : ProviderState :=
  { st with cache := [], pendingRequests := [] }

/-- Leading `./` strip of `remotePath.replace(/^\.\//, '')`. -/
def stripDotSlash (p : String) : String :=
  if jsStartsWith p "./" then strDrop p 2 else p

/-- Source `setConnection` (line 610).  `urlResolve rel base` stands for the
WHATWG `new URL(rel, base).href` library call.  The function normalises the
url and remote path, installs the new connection fields, clears the cache
and the pending table, recreates the axios instance, marks the provider
connected and runs `refresh` (which clears the cache again).  It does NOT
touch `lastRequestTime` or `requestDelay`. -/
def setConnection (urlResolve : String → String → String)
    (url token remotePath : String) (st : ProviderState) : ProviderState :=
  let serverUrl := if jsEndsWith url "/" then url else url ++ "/"
  let finalRemotePath := stripDotSlash remotePath
  let finalRemotePath :=
    if jsStartsWith finalRemotePath "/" then strDrop finalRemotePath 1 else finalRemotePath
  let finalRemotePath :=
    if jsEndsWith finalRemotePath "/" then strDropLast finalRemotePath else finalRemotePath
  let serverUrl :=
    if finalRemotePath ≠ "" then urlResolve finalRemotePath serverUrl else serverUrl
  let st := { st with
    jupyterServerUrl := if jsEndsWith serverUrl "/" then serverUrl else serverUrl ++ "/"
    jupyterToken := token
    remotePath := "/" }
  let st := clearCache st
  let st := { st with pendingRequests := [] }
  let st := { st with hasAxios := true }
  let st := { st with isConnected := true }
  clearCache st

/-- Source `disconnect` (line 657): clears the pending table, drops the
axios instance, marks the provider disconnected, clears the cache, resets
`lastRequestTime` to 0 and `requestDelay` to the default 100, and runs
`refresh` (clearing the cache once more). -/
def disconnect (st : ProviderState) : ProviderState :=
  let st := { st with pendingRequests := [] }
  let st := { st with hasAxios := false, isConnected := false }
  let st := clearCache st
  let st := { st with lastRequestTime := 0, requestDelay := 100 }
  clearCache st

/-! ### RecursiveOperationEngine: `deleteFileWithRetry` (lines 1579-1606) -/

/-- Loop body of `deleteFileWithRetry`, recursing on the number of attempts
still allowed (the source iterates `attempt = 1 .. maxRetries`).  Each
attempt issues a DELETE; on rejection the final attempt throws a plain
error naming the file and the attempt count, earlier attempts wait
`delayMs` and retry. -/
def deleteFileWithRetryGo (server : Server) (itemPath : String)
    (maxRetries delayMs : Nat) : Nat → Trace → Except JsError Unit × Trace
  | 0, tr => (.ok (), tr)
  | remaining + 1, tr =>
      match axiosRequest server .delete ("api/contents/" ++ itemPath) tr with
      | (.ok _, tr') => (.ok (), tr')
      | (.error _, tr') =>
          if remaining = 0 then
            (.error (.plain ("Failed to delete file " ++ itemPath ++ " after " ++
              toString maxRetries ++
              " attempts. The file may be locked, in use, or protected by the server.")),
              tr')
          else deleteFileWithRetryGo server itemPath maxRetries delayMs remaining
                 (tr'.sleep delayMs)

/-- Source `deleteFileWithRetry` (line 1579) with its default arguments
`maxRetries = 3`, `delay = 1000`. -/
def deleteFileWithRetry (server : Server) (itemPath : String) (tr : Trace)
    (maxRetries : Nat := 3) (delayMs : Nat := 1000) : Except JsError Unit × Trace :=
  deleteFileWithRetryGo server itemPath maxRetries delayMs maxRetries tr

/-! ### RecursiveOperationEngine: `deleteDirectoryRecursive` (lines 1489-1577)

The source recursion is bounded by the server-side tree depth; the
embedding makes that bound an explicit `fuel` parameter, consumed only when
descending into a subdirectory.  Exhausted fuel is reported as an error
(unreachable in the finite scenarios considered here). -/

/-- Child loop of `deleteDirectoryRecursive` (lines 1516-1527),
parameterised by the recursive call used for subdirectories: no try/catch
surrounds the loop body, so the first child whose deletion rejects aborts
the remaining iterations by propagating its error. -/
def deleteChildren (server : Server)
    (delDir : String → Trace → Except JsError Unit × Trace) :
    List Entry → Trace → Except JsError Unit × Trace
  | [], tr => (.ok (), tr)
  | item :: rest, tr =>
      let step :=
        if item.type = "directory" then delDir item.path tr
        else deleteFileWithRetry server item.path tr
      match step with
      | (.ok _, tr') => deleteChildren server delDir rest tr'
      | (.error e, tr') => (.error e, tr')

/-- Straggler loop of the `not empty` recovery path (lines 1548-1559),
parameterised by the recursive call used for subdirectories: each remaining
item is deleted inside its own try/catch, so individual failures are
swallowed. -/
def retryChildren (server : Server)
    (delDir : String → Trace → Except JsError Unit × Trace) :
    List Entry → Trace → Trace
  | [], tr => tr
  | item :: rest, tr =>
      let tr' :=
        if item.type = "directory" then (delDir item.path tr).2
        else (axiosRequest server .delete ("api/contents/" ++ item.path) tr).2
      retryChildren server delDir rest tr'

/-- Source `deleteDirectoryRecursive` (line 1489): list the directory;
delete an empty directory directly; otherwise delete every child in order
(recursing into subdirectories, retrying files via `deleteFileWithRetry`),
then delete the directory itself; when that final delete rejects with a
message containing `not empty`, re-list once, best-effort delete the
stragglers, and retry the directory delete exactly once more, rethrowing
the original error if anything in the recovery fails.  The outer catch of
the source only logs and rethrows.  The source recursion is bounded by the
depth of the server-side tree; the embedding spends one unit of `fuel` per
directory level, so any `fuel` larger than the tree depth reproduces the
source behaviour, while exhausted fuel reports an artificial error
(unreachable in the finite scenarios considered here). -/
def deleteDirectoryRecursive (server : Server) :
    Nat → String → Trace → Except JsError Unit × Trace
  | 0, _, tr => (.error (.plain "recursion fuel exhausted"), tr)
  | fuel + 1, dirPath, tr =>
      let delDir := deleteDirectoryRecursive server fuel
      let listUrl := "api/contents/" ++ dirPath
      match axiosRequest server .get listUrl tr with
      | (.error e, tr') => (.error e, tr')
      | (.ok resp, tr') =>
          let contents := resp.data.content?.getD []
          if contents.isEmpty then
            match axiosRequest server .delete listUrl tr' with
            | (.ok _, tr'') => (.ok (), tr'')
            | (.error e, tr'') => (.error e, tr'')
          else
            match deleteChildren server delDir contents tr' with
            | (.error e, tr'') => (.error e, tr'')
            | (.ok _, tr'') =>
                match axiosRequest server .delete listUrl tr'' with
                | (.ok _, tr3) => (.ok (), tr3)
                | (.error dirError, tr3) =>
                    let notEmpty :=
                      match dirError with
                      | .axios _ (some m) _ => jsIncludes m "not empty"
                      | _ => false
                    if notEmpty then
                      match axiosRequest server .get listUrl tr3 with
                      | (.error _, tr4) => (.error dirError, tr4)
                      | (.ok checkResp, tr4) =>
                          let remaining := checkResp.data.content?.getD []
                          let tr5 := retryChildren server delDir remaining tr4
                          match axiosRequest server .delete listUrl tr5 with
                          | (.ok _, tr6) => (.ok (), tr6)
                          | (.error _, tr6) => (.error dirError, tr6)
                    else (.error dirError, tr3)

/-! ### `moveItem` (lines 2152-2197) -/

/-- Source `moveItem` (line 2152): strip leading slashes of both paths,
PATCH `api/contents/{source}` with the target path; a resolved response
(any status below 500, per `validateStatus`) is treated as success; a
rejected promise is mapped to plain errors distinguishing 404, 409 and
other statuses, or the transport message. -/
def moveItem (server : Server) (sourcePath targetPath : String) (tr : Trace) :
    Except JsError Unit × Trace :=
  let sourcePathClean := stripLeadingSlash sourcePath
  let apiUrl := "api/contents/" ++ sourcePathClean
  match axiosRequest server .patch apiUrl tr with
  | (.ok _, tr') => (.ok (), tr')
  | (.error e, tr') =>
      match e with
      | .axios (some status) dataMessage? _ =>
          if status = 404 then
            (.error (.plain ("File not found: The source file \"" ++ sourcePath ++
              "\" does not exist on the server.")), tr')
          else if status = 409 then
            (.error (.plain ("Conflict: A file already exists at \"" ++ targetPath ++
              "\".")), tr')
          else
            (.error (.plain ("Move failed: " ++ toString status ++ " - " ++
              dataMessage?.getD "Unknown server error")), tr')
      | .axios none _ (some code) =>
          (.error (.plain ("Move failed: " ++ code)), tr')
      | .axios none _ none => (.error (.plain "Move failed: "), tr')
      | .plain m => (.error (.plain ("Move failed: " ++ m)), tr')

/-! ### `handleInternalMove` (lines 2086-2150) -/

/-- Tree item as carried by the drag-and-drop transfer (`label`, `uri` and
the collapsible flag distinguishing directories). -/
structure FileItem where
  label : String
  uri : String
  collapsible : Bool
deriving DecidableEq, Repr

/-- Accumulated outcome of the batch-move loop. -/
structure BatchState where
  successCount : Nat := 0
  errorCount : Nat := 0
  tr : Trace := {}
deriving DecidableEq, Repr

/-- Item loop of `handleInternalMove` (lines 2109-2135): skip an item whose
parent already equals the target; reject (count as error, no request) a
collapsible item whose uri is a string prefix of the target; otherwise call
`moveItem` on `targetPath + "/" + label` with the first `//` collapsed,
counting a resolved call as success and a rejected one as error.  Every
branch continues with the remaining items. -/
def handleInternalMoveLoop (server : Server) (targetPath : String) :
    List FileItem → BatchState → BatchState
  | [], st => st
  | item :: rest, st =>
      let sourceParent := extractParentPath item.uri
      if sourceParent = targetPath then
        handleInternalMoveLoop server targetPath rest st
      else if item.collapsible ∧ jsStartsWith targetPath item.uri then
        handleInternalMoveLoop server targetPath rest
          { st with errorCount := st.errorCount + 1 }
      else
        let newPath := jsReplaceOnce (targetPath ++ "/" ++ item.label) "//" "/"
        match moveItem server item.uri newPath st.tr with
        | (.ok _, tr') =>
            handleInternalMoveLoop server targetPath rest
              { st with successCount := st.successCount + 1, tr := tr' }
        | (.error _, tr') =>
            handleInternalMoveLoop server targetPath rest
              { st with errorCount := st.errorCount + 1, tr := tr' }

/-! ### ChangeNotifier events (`_emitter.fire`, used by `writeFile`,
`createDirectory`, `delete` and `rename`) -/

/-- Kind of a `vscode.FileChangeEvent`. -/
inductive ChangeKind where
  | created
  | changed
  | deleted
deriving DecidableEq, Repr

/-- Emitted change event, reduced to its kind and affected path
(`vscode.Uri.parse("jupyter-remote:" ++ p).path` is `p` for the paths the
source builds). -/
structure ChangeEvent where
  kind : ChangeKind
  path : String
deriving DecidableEq, Repr

/-- Source `writeFile` (line 1420): requires a connection, PUTs the file via
`saveFileToJupyter` (whose catch swallows the transport error), then fires
Created (with `options.create`) or Changed for the path followed by Changed
for its parent.  Returns the result, the request trace and the flattened
emitted events. -/
def writeFile (server : Server) (conn : Bool) (p : String) (create : Bool)
    (tr : Trace) : Except JsError Unit × Trace × List ChangeEvent :=
  if !conn then (.error (.plain "Not connected to Jupyter Server."), tr, [])
  else
    let path := stripLeadingSlash p
    let (_, tr') := axiosRequest server .put ("api/contents/" ++ path) tr
    (.ok (), tr',
      [⟨if create then .created else .changed, p⟩,
       ⟨.changed, extractParentPath p⟩])

/-- Source `createDirectory` (line 1389): requires a connection, PUTs
`{type: directory}`; on success fires Created for the path and Changed for
its parent; on rejection rethrows without emitting. -/
def createDirectory (server : Server) (conn : Bool) (p : String) (tr : Trace) :
    Except JsError Unit × Trace × List ChangeEvent :=
  if !conn then (.error (.plain "Not connected to Jupyter Server."), tr, [])
  else
    let path := stripLeadingSlash p
    match axiosRequest server .put ("api/contents/" ++ path) tr with
    | (.ok _, tr') =>
        (.ok (), tr', [⟨.created, p⟩, ⟨.changed, extractParentPath p⟩])
    | (.error e, tr') => (.error e, tr', [])

/-- JavaScript string rendering of a caught error value, as interpolated by
template literals such as `Failed to rename: ${error}`. -/
def jsErrorToString : JsError → String
  | .axios (some s) _ _ => "AxiosError: Request failed with status code " ++ toString s
  | .axios none _ (some c) => "AxiosError: " ++ c
  | .axios none _ none => "AxiosError"
  | .plain m => "Error: " ++ m

/-- Error-message assembly of the catch block of `delete`
(lines 1466-1482). -/
def deleteErrorMessage (itemPath : String) (e : JsError) : String :=
  let base := "Failed to delete " ++ itemPath
  match e with
  | .axios status? (some serverMessage) _ =>
      if jsIncludes serverMessage "not empty" then
        base ++ ": Directory contains files that could not be deleted. This might be due to hidden files, permission issues, or server-side restrictions."
      else if status? = some 400 then base ++ ": " ++ serverMessage
      else base ++ ": " ++ serverMessage
  | .axios (some 400) none _ =>
      base ++ ": Bad Request - The server cannot delete this item. It may contain files or be protected."
  | .axios (some 404) none _ => base ++ ": Item not found"
  | .axios (some 403) none _ => base ++ ": Permission denied"
  | .axios _ none _ => base ++ ": "
  | .plain m => base ++ ": " ++ m

/-- Source `delete` (line 1429), deletion attempt of the try block:
stats the path (a rejected stat falls back to kind File, line 1372); a
directory with `options.recursive` goes through
`deleteDirectoryRecursive`, anything else through a single DELETE. -/
def deleteAttempt (server : Server) (fuel : Nat) (itemPath : String)
    (recursive : Bool) (tr : Trace) : Except JsError Unit × Trace :=
  let (statRes, tr1) := axiosRequest server .get ("api/contents/" ++ itemPath) tr
  let isDirectory : Bool :=
    match statRes with
    | .ok r => r.data.type? = some "directory"
    | .error _ => false
  if isDirectory && recursive then
    deleteDirectoryRecursive server fuel itemPath tr1
  else
    match axiosRequest server .delete ("api/contents/" ++ itemPath) tr1 with
    | (.ok _, tr2) => (.ok (), tr2)
    | (.error e, tr2) => (.error e, tr2)

/-- Source `delete` (line 1429), continued: on a successful attempt fires
Deleted for the path and Changed for its parent; the catch rethrows a
descriptive message without emitting. -/
def deleteOp (server : Server) (conn : Bool) (fuel : Nat) (p : String)
    (recursive : Bool) (tr : Trace) : Except JsError Unit × Trace × List ChangeEvent :=
  if !conn then (.error (.plain "Not connected to Jupyter Server."), tr, [])
  else
    let itemPath := stripLeadingSlash p
    match deleteAttempt server fuel itemPath recursive tr with
    | (.ok _, tr2) =>
        (.ok (), tr2, [⟨.deleted, p⟩, ⟨.changed, extractParentPath p⟩])
    | (.error e, tr2) =>
        (.error (.plain (deleteErrorMessage itemPath e)), tr2, [])

/-- Source `rename` (line 1709): requires a connection, PATCHes the old
path with the new one; on success fires Deleted for the old path and
Created for the new one, Changed for the old parent, and Changed for the
new parent only when the two parents differ; the catch rethrows without
emitting. -/
def rename (server : Server) (conn : Bool) (oldP newP : String) (tr : Trace) :
    Except JsError Unit × Trace × List ChangeEvent :=
  if !conn then (.error (.plain "Not connected to Jupyter Server."), tr, [])
  else
    let oldPath := stripLeadingSlash oldP
    match axiosRequest server .patch ("api/contents/" ++ oldPath) tr with
    | (.ok _, tr') =>
        let oldParent := extractParentPath oldP
        let newParent := extractParentPath newP
        (.ok (), tr',
          [⟨.deleted, oldP⟩, ⟨.created, newP⟩, ⟨.changed, oldParent⟩] ++
            (if oldParent ≠ newParent then [⟨.changed, newParent⟩] else []))
    | (.error e, tr') =>
        (.error (.plain ("Failed to rename: " ++ jsErrorToString e)), tr', [])

/-! ### `makeRequestWithCache` (lines 907-971)

The function is cut at its `await` points into a synchronous start segment
(`mrwcStart`: cache lookup, pending lookup, issuing the call and
registering it) and a completion segment (`mrwcFinish`: caching, adaptive
rate limiting and the `finally` that unregisters the pending entry).  A
two-caller interleaving is then the composition of these segments in the
order forced by the event loop. -/

/-- State shared by concurrent `makeRequestWithCache` callers: the response
cache, the pending-request table (key to promise id) and the number of
network calls started so far (the next promise id). -/
structure MrwcState where
  cache : List (String × Body × Int) := []
  pending : List (String × Nat) := []
  calls : Nat := 0
deriving DecidableEq, Repr

/-- Outcome of the synchronous start segment of `makeRequestWithCache`: a
fresh-cache hit returning `{ data: cached }`, joining an in-flight call, or
starting (and, for cached GETs, registering) a new network call. -/
inductive MrwcStart where
  | fromCache (data : Body)
  | awaitPending (pid : Nat)
  | started (pid : Nat)
deriving DecidableEq, Repr

/-- Start segment of `makeRequestWithCache` (lines 907-945): for a GET with
caching enabled, consult `getFromCache` (deleting a stale entry), then the
pending table; otherwise or on a miss, start a new call and register it
under `pending:{method}:{url}` when it is a cached GET. -/
def mrwcStart (enableCaching : Bool) (method url : String) (now cacheTimeout : Int)
    (st : MrwcState) : MrwcStart × MrwcState :=
  let cacheKey := getCacheKey url method
  let pendingKey := "pending:" ++ cacheKey
  let begin_ : MrwcState → MrwcStart × MrwcState := fun st =>
    let pid := st.calls
    let st := { st with calls := st.calls + 1 }
    let st :=
      if method = "GET" ∧ enableCaching then
        { st with pending := mapSet pendingKey pid st.pending }
      else st
    (.started pid, st)
  if method = "GET" ∧ enableCaching then
    match getFromCache now cacheTimeout cacheKey st.cache with
    | (some data, cache') => (.fromCache data, { st with cache := cache' })
    | (none, cache') =>
        let st := { st with cache := cache' }
        match mapGet pendingKey st.pending with
        | some pid => (.awaitPending pid, st)
        | none => begin_ st
  else begin_ st

/-- Completion segment of `makeRequestWithCache` (lines 947-970) for the
caller that started the call: on a resolved response with status below 300,
a cached GET stores `response.data`; adaptive rate limiting is applied to
the outcome; the `finally` removes the pending registration of a cached
GET; the result is the response or the rethrown error. -/
def mrwcFinish (enableCaching : Bool) (method url : String) (now : Int)
    (outcome : Except JsError Resp) (st : MrwcState) (delay : ℚ) :
    Except JsError Resp × MrwcState × ℚ :=
  let cacheKey := getCacheKey url method
  let pendingKey := "pending:" ++ cacheKey
  let isCachedGet : Bool := method == "GET" && enableCaching
  match outcome with
  | .ok r =>
      let statusBelow300 : Bool :=
        match r.status? with | some s => s < 300 | none => false
      let st :=
        if isCachedGet && statusBelow300 then
          { st with cache := setCache now cacheKey r.data st.cache }
        else st
      let delay := adaptiveRateLimit none delay
      let st :=
        if isCachedGet then { st with pending := mapDelete pendingKey st.pending } else st
      (.ok r, st, delay)
  | .error e =>
      let delay := adaptiveRateLimit (some e) delay
      let st :=
        if isCachedGet then { st with pending := mapDelete pendingKey st.pending } else st
      (.error e, st, delay)

/-- Joint result of the two-caller scenario. -/
structure DedupeOut where
  resA : Except JsError Resp
  resB : Except JsError Resp
  final : MrwcState
  delay : ℚ
deriving Repr

/-- Two concurrent `makeRequestWithCache` GET callers for the same url, the
second starting while the first's call is in flight.  `o` is the outcome of
the first started network call, `o2` of a second one (issued only when a
caller makes its own call), `aFirst` the order in which the two suspended
callers resume once the shared promise settles.  The composition follows
the source's single-threaded event loop:

* A runs its start segment, then suspends.
* B runs its start segment; if it finds A's pending registration it awaits
  that same promise (line 926), otherwise it starts its own call.
* When the shared promise resolves, B returns its value unchanged while A
  runs `mrwcFinish`; when it rejects, A runs `mrwcFinish` (rethrow) and B's
  catch (line 929) removes the pending registration and falls through to
  start and await its own call — in either resume order. -/
def dedupeScenario (enableCaching : Bool) (url : String) (now cacheTimeout : Int)
    (o o2 : Except JsError Resp) (aFirst : Bool) (st0 : MrwcState) (delay0 : ℚ) :
    DedupeOut :=
  let method := "GET"
  let pendingKey := "pending:" ++ getCacheKey url method
  match mrwcStart enableCaching method url now cacheTimeout st0 with
  | (.fromCache data, st1) =>
      -- A answered from the cache; B then runs the same lookup.
      match mrwcStart enableCaching method url now cacheTimeout st1 with
      | (.fromCache data2, st2) => ⟨.ok ⟨none, data⟩, .ok ⟨none, data2⟩, st2, delay0⟩
      | (.awaitPending _, st2) => ⟨.ok ⟨none, data⟩, o, st2, delay0⟩
      | (.started _, st2) =>
          let (resB, st3, d1) := mrwcFinish enableCaching method url now o st2 delay0
          ⟨.ok ⟨none, data⟩, resB, st3, d1⟩
  | (.awaitPending _, st1) =>
      -- Cannot happen from an empty pending table; treated as both callers
      -- awaiting the foreign promise.
      ⟨o, o, st1, delay0⟩
  | (.started _, st1) =>
      match mrwcStart enableCaching method url now cacheTimeout st1 with
      | (.fromCache data2, st2) =>
          let (resA, st3, d1) := mrwcFinish enableCaching method url now o st2 delay0
          ⟨resA, .ok ⟨none, data2⟩, st3, d1⟩
      | (.awaitPending _, st2) =>
          match o with
          | .ok r =>
              -- B returns the shared resolved value; A finishes its call.
              let (resA, st3, d1) := mrwcFinish enableCaching method url now (.ok r) st2 delay0
              ⟨resA, .ok r, st3, d1⟩
          | .error e =>
              if aFirst then
                let (resA, st3, d1) := mrwcFinish enableCaching method url now (.error e) st2 delay0
                let st4 := { st3 with pending := mapDelete pendingKey st3.pending }
                let (_, st5) := mrwcStart enableCaching method url now cacheTimeout st4
                let (resB, st6, d2) := mrwcFinish enableCaching method url now o2 st5 d1
                ⟨resA, resB, st6, d2⟩
              else
                let st3 := { st2 with pending := mapDelete pendingKey st2.pending }
                let (_, st4) := mrwcStart enableCaching method url now cacheTimeout st3
                let (resA, st5, d1) := mrwcFinish enableCaching method url now (.error e) st4 delay0
                let (resB, st6, d2) := mrwcFinish enableCaching method url now o2 st5 d1
                ⟨resA, resB, st6, d2⟩
      | (.started _, st2) =>
          -- Caching disabled (or a cache hit for B was impossible): two
          -- independent calls, each finishing with its own outcome.
          if aFirst then
            let (resA, st3, d1) := mrwcFinish enableCaching method url now o st2 delay0
            let (resB, st4, d2) := mrwcFinish enableCaching method url now o2 st3 d1
            ⟨resA, resB, st4, d2⟩
          else
            let (resB, st3, d1) := mrwcFinish enableCaching method url now o2 st2 delay0
            let (resA, st4, d2) := mrwcFinish enableCaching method url now o st3 d1
            ⟨resA, resB, st4, d2⟩

/-! ### Concrete scenario servers and states used by witnesses and
counterexamples -/

/-- Server answering every request with 200 and an empty body. -/
def okServer : Server := fun _ _ => .reply 200 {}

/-- Server answering every request with 409 (target already exists). -/
def conflictServer : Server := fun _ _ => .reply 409 { message? := some "File exists" }

/-- Server answering every request with 404 (source missing). -/
def notFoundServer : Server := fun _ _ => .reply 404 { message? := some "No such entity" }

/-- Server for the recursive-delete scenario of section 8 of the spec: the
directory `dir` lists three files `f1`, `f2`, `f3`; every DELETE of
`dir/f2` fails with a 500, every other DELETE succeeds. -/
def partialFailServer : Server := fun _ r =>
  match r.method, r.url with
  | .get, "api/contents/dir" =>
      .reply 200
        { content? :=
            some [⟨"f1", "dir/f1", "file"⟩, ⟨"f2", "dir/f2", "file"⟩, ⟨"f3", "dir/f3", "file"⟩] }
  | .delete, "api/contents/dir/f2" => .reply 500 { message? := some "boom" }
  | .delete, _ => .reply 204 {}
  | _, _ => .netError "ENOTFOUND"

/-- Server answering every request with 429 Too Many Requests. -/
def status429Server : Server :=
  fun _ _ => .reply 429 { message? := some "Too Many Requests" }

/-- Server timing out every request (`ECONNABORTED`). -/
def econnAbortServer : Server := fun _ _ => .netError "ECONNABORTED"

/-- Provider state of an established connection whose rate limiter has
adapted (`requestDelay` widened to 1500 by previous throttling) and whose
cache and pending table are populated. -/
def adaptedState : ProviderState :=
  { jupyterServerUrl := "http://old.example/"
    jupyterToken := "t0"
    remotePath := "/"
    hasAxios := true
    isConnected := true
    lastRequestTime := 987654
    requestDelay := 1500
    cache := [(getCacheKey "/api/contents/a", {}, 0)]
    pendingRequests := [("pending:GET:/api/contents/a", 0)] }

/-- Distinct cache keys used in the capacity-eviction scenarios. -/
def evKey (i : Nat) : String := "GET:/f" ++ toString i

/-- Cache obtained by inserting `n` distinct keys into an empty table. -/
def evInsertAll (n : Nat) : List (String × Nat × Int) :=
  (List.range n).foldl (fun c i => setCache 0 (evKey i) 0 c) []

/-- Head entry of a concrete 101-entry cache. -/
def evHd : String × Nat × Int := (evKey 0, 0, 0)

/-- Tail entries of a concrete 101-entry cache. -/
def evTl : List (String × Nat × Int) :=
  (List.range 100).map (fun i => (evKey (i + 1), 0, 0))

end JfeModel

namespace JfeModel

/-! ### Helper lemmas -/

/-- Setting a key absent from an association list appends the binding. -/
theorem mapSet_of_fresh {α : Type} (k : String) (v : α) :
    ∀ l : List (String × α), (∀ e ∈ l, e.1 ≠ k) → mapSet k v l = l ++ [(k, v)]
  | [], _ => rfl
  | (k', v') :: rest, h => by
      have hk : ¬ k' = k := h (k', v') (List.mem_cons_self _ _)
      simp only [mapSet, if_neg hk, List.cons_append, List.cons.injEq, true_and]
      exact mapSet_of_fresh k v rest (fun e he => h e (List.mem_cons_of_mem _ he))

/-- Deleting the head key of an association list whose tail does not repeat
it removes exactly the head. -/
theorem mapDelete_head {α : Type} (k : String) (v : α) (t : List (String × α))
    (ht : ∀ e ∈ t, e.1 ≠ k) : mapDelete k ((k, v) :: t) = t := by
  simp only [mapDelete, List.filter_cons]
  rw [if_neg (by simp)]
  exact List.filter_eq_self.mpr (fun e he => by simpa using ht e he)

/-! ### Claim C1 -/

/-- C1 (counterexample): in the spec's own scenario — a directory `dir`
with three files whose second file fails every DELETE attempt —
`deleteDirectoryRecursive` does NOT attempt the remaining sibling `dir/f3`
and does NOT attempt the final delete of the parent directory `dir`; it
propagates the retry error instead.  The claim asserts both attempts still
happen. -/
theorem c1_counterexample :
    ((deleteDirectoryRecursive partialFailServer 5 "dir" {}).1 =
      .error (.plain "Failed to delete file dir/f2 after 3 attempts. The file may be locked, in use, or protected by the server.")) ∧
    ((deleteDirectoryRecursive partialFailServer 5 "dir" {}).2.reqs =
      [⟨.get, "api/contents/dir"⟩, ⟨.delete, "api/contents/dir/f1"⟩,
       ⟨.delete, "api/contents/dir/f2"⟩, ⟨.delete, "api/contents/dir/f2"⟩,
       ⟨.delete, "api/contents/dir/f2"⟩]) ∧
    ((⟨.delete, "api/contents/dir/f3"⟩ : Req) ∉
      ([⟨.get, "api/contents/dir"⟩, ⟨.delete, "api/contents/dir/f1"⟩,
        ⟨.delete, "api/contents/dir/f2"⟩, ⟨.delete, "api/contents/dir/f2"⟩,
        ⟨.delete, "api/contents/dir/f2"⟩] : List Req)) ∧
    (∀ r ∈ ([⟨.get, "api/contents/dir"⟩, ⟨.delete, "api/contents/dir/f1"⟩,
        ⟨.delete, "api/contents/dir/f2"⟩, ⟨.delete, "api/contents/dir/f2"⟩,
        ⟨.delete, "api/contents/dir/f2"⟩] : List Req),
      ¬(r.method = .delete ∧ r.url = "api/contents/dir")) :=
  ⟨by rfl, by rfl, by decide, by decide⟩

/-- C1 (amended): in the same scenario the engine deletes `dir/f1`, retries
`dir/f2` exactly 3 times with the fixed 1000 ms delay between attempts, and
then the descriptive error naming the file and the attempt count propagates
out of the sibling loop, so neither the third sibling nor the parent
directory delete is issued: the full request trace is the listing followed
by the delete of `f1` and the three delete attempts of `f2`. -/
theorem c1_amended :
    deleteDirectoryRecursive partialFailServer 5 "dir" {} =
      (.error (.plain "Failed to delete file dir/f2 after 3 attempts. The file may be locked, in use, or protected by the server."),
       { reqs := [⟨.get, "api/contents/dir"⟩, ⟨.delete, "api/contents/dir/f1"⟩,
                  ⟨.delete, "api/contents/dir/f2"⟩, ⟨.delete, "api/contents/dir/f2"⟩,
                  ⟨.delete, "api/contents/dir/f2"⟩],
         sleeps := [1000, 1000] }) := by rfl

/-! ### Claim C2 -/

/-- C2 (code bug): `moveItem` resolves successfully when the server answers
the PATCH with 409 (existing target) or 404 (missing source), because the
axios instance is created with `validateStatus: (status) => status < 500`:
such responses never reject, so the catch branches that would produce the
distinguished Conflict and NotFound errors (lines 2186-2189) are
unreachable and the operation reports success. -/
theorem c2_move_4xx_resolves :
    moveItem conflictServer "/a.txt" "/b/a.txt" {} =
      (.ok (), { reqs := [⟨.patch, "api/contents/a.txt"⟩], sleeps := [] }) ∧
    moveItem notFoundServer "/missing.txt" "/b/missing.txt" {} =
      (.ok (), { reqs := [⟨.patch, "api/contents/missing.txt"⟩], sleeps := [] }) :=
  ⟨by rfl, by rfl⟩

/-! ### Claim C3 -/

/-- C3 (counterexample): `setConnection` clears the cache and the pending
table but carries the previous connection's adapted rate-limiter state
over: starting from a state whose `requestDelay` was widened to 1500 and
whose `lastRequestTime` is 987654, the state after `setConnection` still
holds exactly those values (and not the default 100 / 0), contradicting the
claim that the rate limiter carries no value adapted under the previous
connection after `setConnection` completes. -/
theorem c3_counterexample :
    (setConnection (fun rel base => base ++ rel ++ "/") "http://new.example"
        "tok" "/user/me" adaptedState).requestDelay = 1500 ∧
    (setConnection (fun rel base => base ++ rel ++ "/") "http://new.example"
        "tok" "/user/me" adaptedState).lastRequestTime = 987654 ∧
    (1500 : ℚ) ≠ 100 ∧ (987654 : Int) ≠ 0 :=
  ⟨by rfl, by rfl, by norm_num, by norm_num⟩

/-- C3 (amended): replacing the connection invalidates the caches but only
`disconnect` resets the rate limiter.  After `setConnection` the cache and
the pending-request table are empty, yet `lastRequestTime` and
`requestDelay` are exactly the values of the previous connection; after
`disconnect` the cache and pending table are empty and the rate state is
reset to `lastRequestTime = 0`, `requestDelay = 100`. -/
theorem c3_state_replacement (urlResolve : String → String → String)
    (url token remotePath : String) (st : ProviderState) :
    ((setConnection urlResolve url token remotePath st).cache = [] ∧
     (setConnection urlResolve url token remotePath st).pendingRequests = [] ∧
     (setConnection urlResolve url token remotePath st).isConnected = true ∧
     (setConnection urlResolve url token remotePath st).lastRequestTime = st.lastRequestTime ∧
     (setConnection urlResolve url token remotePath st).requestDelay = st.requestDelay) ∧
    ((disconnect st).cache = [] ∧
     (disconnect st).pendingRequests = [] ∧
     (disconnect st).lastRequestTime = 0 ∧
     (disconnect st).requestDelay = 100) := by
  refine ⟨⟨?_, ?_, ?_, ?_, ?_⟩, ⟨?_, ?_, ?_, ?_⟩⟩ <;>
    simp [setConnection, disconnect, clearCache]

/-! ### Claim C4 -/

set_option maxRecDepth 100000 in
/-- C4 (counterexample): with the default configured `maxCacheSize` of 100,
inserting `maxCacheSize + 1 = 101` distinct keys into an empty cache evicts
nothing at all — the table ends with all 101 entries and the
first-inserted key is still present — because `setCache` checks the
hardcoded bound `size > 100` before inserting, so the 101st insertion sees
size 100 and skips eviction. -/
theorem c4_counterexample :
    (evInsertAll 101).length = 101 ∧
    mapGet (evKey 0) (evInsertAll 101) = some (0, 0) := by
  decide

/-- C4 (amended): `setCache` evicts exactly the single oldest-inserted
entry (FIFO) when the table size at insertion time exceeds the hardcoded
constant 100 (not the configured `maxCacheSize`, which `setCache` never
reads): for any table of more than 100 entries with unique keys whose head
key is non-empty, inserting a fresh key drops the head and appends the new
entry.  In particular the first eviction during a run of distinct
insertions into an empty table happens at the 102nd insertion, not the
101st. -/
theorem c4_setCache_evicts_head {α : Type} (now : Int) (key : String) (v : α)
    (k0 : String) (v0 : α × Int) (tl : List (String × α × Int))
    (hlen : ((k0, v0) :: tl).length > 100) (hhd : k0 ≠ "")
    (htl : ∀ e ∈ tl, e.1 ≠ k0) (hfresh : ∀ e ∈ (k0, v0) :: tl, e.1 ≠ key) :
    setCache now key v ((k0, v0) :: tl) = tl ++ [(key, v, now)] := by
  simp only [setCache, if_pos hlen, if_neg hhd]
  rw [mapDelete_head k0 v0 tl htl]
  exact mapSet_of_fresh key (v, now) tl (fun e he => hfresh e (List.mem_cons_of_mem _ he))

set_option maxRecDepth 100000 in
/-- C4 (witness): the amended eviction step applied to a concrete
101-entry cache and a fresh key. -/
theorem c4_witness :
    (((evKey 0, (0, 0)) :: evTl).length > 100 ∧ evKey 0 ≠ "" ∧
      (∀ e ∈ evTl, e.1 ≠ evKey 0) ∧
      (∀ e ∈ (evKey 0, (0, 0)) :: evTl, e.1 ≠ "GET:/fresh")) ∧
    setCache 7 "GET:/fresh" (9 : Nat) ((evKey 0, (0, 0)) :: evTl) =
      evTl ++ [("GET:/fresh", 9, 7)] :=
  ⟨⟨by decide, by decide, by decide, by decide⟩,
   c4_setCache_evicts_head 7 "GET:/fresh" 9 (evKey 0) (0, 0) evTl
     (by decide) (by decide) (by decide) (by decide)⟩

/-! ### Claim C8 -/

/-- C8 (counterexample): the batch-move loop checks parent-equals-target
before the self-containment guard.  The root item (`uri = "/"`, a
directory) dragged onto the root target satisfies the claim's premise —
it is a directory and its path `/` is a string prefix of the target `/` —
yet it is skipped as a no-op rather than rejected: no request is issued and
`errorCount` stays 0, where the claim requires the item to be counted as a
failure. -/
theorem c8_counterexample :
    handleInternalMoveLoop okServer "/" [⟨"root", "/", true⟩] {} =
      { successCount := 0, errorCount := 0, tr := {} } ∧
    jsStartsWith "/" "/" = true ∧
    extractParentPath "/" = "/" :=
  ⟨by rfl, by rfl, by rfl⟩

/-- C8 (amended): in the batch-move loop an item whose parent equals the
target is skipped as a no-op (checked first), and an item that is a
directory whose uri is a string prefix of the target — and whose parent
does not equal the target — is rejected with no network call, counted as
that item's failure, and the remaining items are still processed. -/
theorem c8_self_containment_guard (server : Server) (targetPath : String)
    (item : FileItem) (rest : List FileItem) (st : BatchState) :
    (extractParentPath item.uri = targetPath →
      handleInternalMoveLoop server targetPath (item :: rest) st =
        handleInternalMoveLoop server targetPath rest st) ∧
    (extractParentPath item.uri ≠ targetPath → item.collapsible = true →
      jsStartsWith targetPath item.uri = true →
      handleInternalMoveLoop server targetPath (item :: rest) st =
        handleInternalMoveLoop server targetPath rest
          { st with errorCount := st.errorCount + 1 }) := by
  constructor
  · intro h
    simp only [handleInternalMoveLoop, if_pos h]
  · intro h1 h2 h3
    simp only [handleInternalMoveLoop, if_neg h1]
    rw [if_pos (by exact ⟨by simp [h2], by simp [h3]⟩)]

/-- C8 (witness): the amended guard applied to the directory `/a` dragged
onto the target `/a/sub` inside itself. -/
theorem c8_witness :
    (extractParentPath "/a" ≠ "/a/sub" ∧
      (⟨"a", "/a", true⟩ : FileItem).collapsible = true ∧
      jsStartsWith "/a/sub" "/a" = true) ∧
    handleInternalMoveLoop okServer "/a/sub" [⟨"a", "/a", true⟩] {} =
      handleInternalMoveLoop okServer "/a/sub" []
        { successCount := 0, errorCount := 0 + 1, tr := {} } :=
  ⟨⟨by decide, rfl, by decide⟩,
   (c8_self_containment_guard okServer "/a/sub" ⟨"a", "/a", true⟩ [] {}).2
     (by decide) rfl (by decide)⟩

/-! ### Claim C6 -/

/-- Step shape of a timeout outcome: the `ECONNABORTED` branch of
`adaptiveRateLimit`. -/
theorem adaptive_timeout_eq (d : ℚ) :
    adaptiveRateLimit (some timeoutError) d = min (d * 1.5) 5000 := by rfl

/-- Step shape of a success outcome for delays at or above the floor. -/
theorem adaptive_success_eq (d : ℚ) (h : 100 ≤ d) :
    adaptiveRateLimit none d = max (d * 0.95) 100 := by
  show (if d > 100 then max (d * 0.95) 100 else d) = max (d * 0.95) 100
  rcases lt_or_eq_of_le h with h' | h'
  · rw [if_pos h']
  · rw [if_neg (by rw [← h']; exact lt_irrefl _), ← h']
    norm_num

/-- Invariant 100 ≤ d ≤ 5000 is preserved by the timeout step and the
delay does not decrease. -/
theorem timeout_step_facts (d : ℚ) (hlo : 100 ≤ d) (hhi : d ≤ 5000) :
    d ≤ adaptiveRateLimit (some timeoutError) d ∧
    100 ≤ adaptiveRateLimit (some timeoutError) d ∧
    adaptiveRateLimit (some timeoutError) d ≤ 5000 := by
  rw [adaptive_timeout_eq]
  refine ⟨le_min (by nlinarith) hhi, le_min (by nlinarith) (by norm_num), min_le_right _ _⟩

/-- Invariant 100 ≤ d is preserved by the success step and the delay does
not increase. -/
theorem success_step_facts (d : ℚ) (hlo : 100 ≤ d) :
    adaptiveRateLimit none d ≤ d ∧ 100 ≤ adaptiveRateLimit none d := by
  rw [adaptive_success_eq d hlo]
  exact ⟨max_le (by nlinarith) hlo, le_max_right _ _⟩

/-- Iterated timeout steps stay inside the band [100, 5000]. -/
theorem timeout_iter_bounds (d : ℚ) (hlo : 100 ≤ d) (hhi : d ≤ 5000) (n : Nat) :
    100 ≤ (adaptiveRateLimit (some timeoutError))^[n] d ∧
    (adaptiveRateLimit (some timeoutError))^[n] d ≤ 5000 := by
  induction n with
  | zero => exact ⟨hlo, hhi⟩
  | succ n ih =>
      rw [Function.iterate_succ_apply']
      exact ⟨(timeout_step_facts _ ih.1 ih.2).2.1, (timeout_step_facts _ ih.1 ih.2).2.2⟩

/-- Iterated success steps stay at or above the floor 100. -/
theorem success_iter_bounds (d : ℚ) (hlo : 100 ≤ d) (n : Nat) :
    100 ≤ (adaptiveRateLimit none)^[n] d := by
  induction n with
  | zero => exact hlo
  | succ n ih =>
      rw [Function.iterate_succ_apply']
      exact (success_step_facts _ ih).2

/-- Rejections of the axios instance come in exactly two shapes: a response
error whose status is at least 500 (with the body message and no transport
code), or a transport error with a code and no response —
`validateStatus: status < 500` resolves everything else, so no rejection
ever carries a 4xx status such as 429. -/
theorem axiosRequest_error_shape (server : Server) (m : Method) (url : String)
    (tr : Trace) (e : JsError)
    (h : (axiosRequest server m url tr).1 = .error e) :
    (∃ s dm, 500 ≤ s ∧ e = .axios (some s) dm none) ∨
    (∃ code, e = .axios none none (some code)) := by
  simp only [axiosRequest] at h
  split at h
  · rename_i status body heq
    by_cases hlt : status < 500
    · rw [if_pos hlt] at h
      simp at h
    · rw [if_neg hlt] at h
      simp only [Except.error.injEq] at h
      exact .inl ⟨status, body.message?, by omega, h.symm⟩
  · rename_i code heq
    simp only [Except.error.injEq] at h
    exact .inr ⟨code, h.symm⟩

/-- C6 (amended): `adaptiveRateLimit` widens the delay only for an error
with a 429 status or an `ECONNABORTED` code — but a rejection of this
axios instance never carries a status below 500, so among reachable
outcomes only a timeout widens the delay, by 1.5 capped at the hardcoded
5000, while every other rejection leaves it unchanged and the 429 rule of
the response interceptor (double, cap 2000) is a no-op on every reachable
error.  An HTTP 429 reply resolves and is processed as a success: the
delay after the completion step of `makeRequestWithCache` on any resolved
response is 0.95 times the old delay floored at the hardcoded 100.  Over N
consecutive timeout outcomes the delay is non-decreasing and never exceeds
5000; over a streak of successes — 429 replies included — it is
non-increasing and never drops below 100. -/
theorem c6_reachable_delay_adaptation (d : ℚ) (hlo : 100 ≤ d) (hhi : d ≤ 5000)
    (server : Server) (m : Method) (url : String) (tr : Trace) (n : Nat) :
    ((∀ e, (axiosRequest server m url tr).1 = .error e →
        adaptiveRateLimit (some e) d =
          if e.codeOf = some "ECONNABORTED" then min (d * 1.5) 5000 else d) ∧
     (∀ e, (axiosRequest server m url tr).1 = .error e →
        interceptorOnRejected e d = d)) ∧
    ((server tr.reqs.length ⟨m, url⟩ = .netError "ECONNABORTED" →
        (axiosRequest server m url tr).1 = .error timeoutError) ∧
     adaptiveRateLimit (some timeoutError) d = min (d * 1.5) 5000) ∧
    (∀ (ec : Bool) (now : Int) (r : Resp) (st : MrwcState),
        (mrwcFinish ec "GET" url now (.ok r) st d).2.2 = max (d * 0.95) 100) ∧
    (((adaptiveRateLimit (some timeoutError))^[n] d ≤
        (adaptiveRateLimit (some timeoutError))^[n + 1] d ∧
      (adaptiveRateLimit (some timeoutError))^[n] d ≤ 5000) ∧
     ((adaptiveRateLimit none)^[n + 1] d ≤ (adaptiveRateLimit none)^[n] d ∧
      100 ≤ (adaptiveRateLimit none)^[n] d)) := by
  have hthr := timeout_iter_bounds d hlo hhi n
  have hsucc := success_iter_bounds d hlo n
  refine ⟨⟨?_, ?_⟩, ⟨?_, adaptive_timeout_eq d⟩, ?_, ⟨⟨?_, hthr.2⟩, ⟨?_, hsucc⟩⟩⟩
  · intro e h
    rcases axiosRequest_error_shape server m url tr e h with ⟨s, dm, h500, rfl⟩ | ⟨code, rfl⟩
    · have hs : s ≠ 429 := by omega
      simp [adaptiveRateLimit, JsError.codeOf, hs]
    · by_cases hc : code = "ECONNABORTED" <;>
        simp [adaptiveRateLimit, JsError.codeOf, hc]
  · intro e h
    rcases axiosRequest_error_shape server m url tr e h with ⟨s, dm, h500, rfl⟩ | ⟨code, rfl⟩
    · have hs : s ≠ 429 := by omega
      simp [interceptorOnRejected, hs]
    · simp [interceptorOnRejected]
  · intro hsrv
    simp [axiosRequest, hsrv, timeoutError]
  · intro ec now r st
    show adaptiveRateLimit none d = max (d * 0.95) 100
    exact adaptive_success_eq d hlo
  · rw [Function.iterate_succ_apply']
    exact (timeout_step_facts _ hthr.1 hthr.2).1
  · rw [Function.iterate_succ_apply']
    exact (success_step_facts _ hsucc).1

/-- C6 (counterexample): an HTTP 429 reply is not a throttling error to
this client.  The request resolves — `validateStatus` accepts every
status below 500 — so the completion step of `makeRequestWithCache`
treats it as a success and applies `adaptiveRateLimit(null)`: at the
adapted delay 1000 the new delay is 1000 · 0.95 = 950, strictly below the
old delay and different from the min(1000 · 1.5, 5000) = 1500 the claim
requires a throttling outcome to produce. -/
theorem c6_counterexample :
    (axiosRequest status429Server .get "api/contents/x" {}).1 =
      .ok ⟨some 429, { message? := some "Too Many Requests" }⟩ ∧
    (mrwcFinish true "GET" "api/contents/x" 0
        (.ok ⟨some 429, { message? := some "Too Many Requests" }⟩) {} 1000).2.2 = 950 ∧
    (950 : ℚ) ≠ min (1000 * 1.5) 5000 ∧
    (950 : ℚ) < 1000 :=
  ⟨by rfl,
   by show adaptiveRateLimit none 1000 = 950; norm_num [adaptiveRateLimit],
   by norm_num, by norm_num⟩

/-- C6 (witness): the amended facts applied at the adapted delay 1000
against a server that times out every request, and to a resolved 429
reply. -/
theorem c6_witness :
    ((100 : ℚ) ≤ 1000 ∧ (1000 : ℚ) ≤ 5000) ∧
    adaptiveRateLimit (some timeoutError) 1000 =
      (if JsError.codeOf timeoutError = some "ECONNABORTED" then min (1000 * 1.5) 5000
       else 1000) ∧
    interceptorOnRejected timeoutError 1000 = 1000 ∧
    (axiosRequest econnAbortServer .get "api/contents/x" {}).1 = .error timeoutError ∧
    adaptiveRateLimit (some timeoutError) 1000 = min (1000 * 1.5) 5000 ∧
    (mrwcFinish true "GET" "api/contents/x" 0
        (.ok ⟨some 429, { message? := some "Too Many Requests" }⟩) {} 1000).2.2 =
      max (1000 * 0.95) 100 :=
  ⟨⟨by norm_num, by norm_num⟩,
   (c6_reachable_delay_adaptation 1000 (by norm_num) (by norm_num) econnAbortServer .get
      "api/contents/x" {} 0).1.1 timeoutError (by rfl),
   (c6_reachable_delay_adaptation 1000 (by norm_num) (by norm_num) econnAbortServer .get
      "api/contents/x" {} 0).1.2 timeoutError (by rfl),
   (c6_reachable_delay_adaptation 1000 (by norm_num) (by norm_num) econnAbortServer .get
      "api/contents/x" {} 0).2.1.1 (by rfl),
   (c6_reachable_delay_adaptation 1000 (by norm_num) (by norm_num) econnAbortServer .get
      "api/contents/x" {} 0).2.1.2,
   (c6_reachable_delay_adaptation 1000 (by norm_num) (by norm_num) econnAbortServer .get
      "api/contents/x" {} 0).2.2.1 true 0 ⟨some 429, { message? := some "Too Many Requests" }⟩ {}⟩

/-! ### Claim C7 -/

/-- C7: successful mutating operations emit change events in pairs.
`writeFile` with `options.create` fires Created for the path (Changed
otherwise) followed by Changed for its parent; a successful
`createDirectory` fires Created for the path and Changed for its parent; a
successful `delete` fires exactly Deleted for the path and Changed for its
parent — in particular no Changed event for the deleted path itself
(whenever the path differs from its parent, i.e. for every non-root
path). -/
theorem c7_change_event_pairs (server : Server) (p : String) (tr : Trace)
    (fuel : Nat) (recursive createFlag : Bool) :
    ((writeFile server true p createFlag tr).2.2 =
      [⟨if createFlag then .created else .changed, p⟩, ⟨.changed, extractParentPath p⟩]) ∧
    ((createDirectory server true p tr).1 = .ok () →
      (createDirectory server true p tr).2.2 =
        [⟨.created, p⟩, ⟨.changed, extractParentPath p⟩]) ∧
    ((deleteOp server true fuel p recursive tr).1 = .ok () →
      (deleteOp server true fuel p recursive tr).2.2 =
        [⟨.deleted, p⟩, ⟨.changed, extractParentPath p⟩] ∧
      (extractParentPath p ≠ p →
        (⟨.changed, p⟩ : ChangeEvent) ∉ (deleteOp server true fuel p recursive tr).2.2)) := by
  refine ⟨rfl, ?_, ?_⟩
  · intro h
    rcases hx : axiosRequest server .put ("api/contents/" ++ stripLeadingSlash p) tr with ⟨res, tr2⟩
    cases res with
    | ok r => simp [createDirectory, hx]
    | error e =>
        exfalso
        simp [createDirectory, hx] at h
  · intro h
    rcases hx : deleteAttempt server fuel (stripLeadingSlash p) recursive tr with ⟨res, tr2⟩
    cases res with
    | ok r =>
        have hevs : (deleteOp server true fuel p recursive tr).2.2 =
            [⟨.deleted, p⟩, ⟨.changed, extractParentPath p⟩] := by simp [deleteOp, hx]
        refine ⟨hevs, ?_⟩
        intro hne hmem
        rw [hevs] at hmem
        rcases List.mem_cons.mp hmem with h1 | h1
        · have hk : ChangeKind.changed = ChangeKind.deleted := congrArg ChangeEvent.kind h1
          exact ChangeKind.noConfusion hk
        · rcases List.mem_cons.mp h1 with h2 | h2
          · exact hne (congrArg ChangeEvent.path h2).symm
          · simp at h2
    | error e =>
        exfalso
        simp [deleteOp, hx] at h

/-- C7 (witness): the pairing facts applied to `/dir/new.txt` against a
server that accepts every request. -/
theorem c7_witness :
    ((deleteOp okServer true 5 "/dir/new.txt" true {}).1 = .ok () ∧
      extractParentPath "/dir/new.txt" ≠ "/dir/new.txt") ∧
    ((writeFile okServer true "/dir/new.txt" true {}).2.2 =
      [⟨.created, "/dir/new.txt"⟩, ⟨.changed, extractParentPath "/dir/new.txt"⟩]) ∧
    ((deleteOp okServer true 5 "/dir/new.txt" true {}).2.2 =
      [⟨.deleted, "/dir/new.txt"⟩, ⟨.changed, extractParentPath "/dir/new.txt"⟩] ∧
     (⟨.changed, "/dir/new.txt"⟩ : ChangeEvent) ∉
       (deleteOp okServer true 5 "/dir/new.txt" true {}).2.2) :=
  ⟨⟨by rfl, by decide⟩,
   (c7_change_event_pairs okServer "/dir/new.txt" {} 5 true true).1,
   ((c7_change_event_pairs okServer "/dir/new.txt" {} 5 true true).2.2 (by rfl)).1,
   ((c7_change_event_pairs okServer "/dir/new.txt" {} 5 true true).2.2 (by rfl)).2 (by decide)⟩

/-! ### Claim C10 -/

/-- C10: a successful rename emits Deleted for the old path, Created for
the new path and Changed for the shared parent — three events — when the
two parents coincide, and additionally Changed for the destination parent
— four events — exactly when the parents differ. -/
theorem c10_rename_events (server : Server) (oldP newP : String) (tr : Trace)
    (hok : (rename server true oldP newP tr).1 = .ok ()) :
    (extractParentPath oldP = extractParentPath newP →
      (rename server true oldP newP tr).2.2 =
        [⟨.deleted, oldP⟩, ⟨.created, newP⟩, ⟨.changed, extractParentPath oldP⟩]) ∧
    (extractParentPath oldP ≠ extractParentPath newP →
      (rename server true oldP newP tr).2.2 =
        [⟨.deleted, oldP⟩, ⟨.created, newP⟩, ⟨.changed, extractParentPath oldP⟩,
         ⟨.changed, extractParentPath newP⟩]) := by
  rcases hx : axiosRequest server .patch ("api/contents/" ++ stripLeadingSlash oldP) tr with ⟨res, tr2⟩
  cases res with
  | ok r =>
      constructor
      · intro heq
        simp [rename, hx, heq]
      · intro hne
        simp [rename, hx, hne]
  | error e =>
      exfalso
      simp [rename, hx] at hok

/-- C10 (witness): a same-directory rename of `/a/b.txt` to `/a/c.txt` and
a cross-directory rename of `/a/b.txt` to `/d/b.txt` against a server that
accepts every request. -/
theorem c10_witness :
    ((rename okServer true "/a/b.txt" "/a/c.txt" {}).1 = .ok () ∧
      extractParentPath "/a/b.txt" = extractParentPath "/a/c.txt" ∧
      (rename okServer true "/a/b.txt" "/d/b.txt" {}).1 = .ok () ∧
      extractParentPath "/a/b.txt" ≠ extractParentPath "/d/b.txt") ∧
    (rename okServer true "/a/b.txt" "/a/c.txt" {}).2.2 =
      [⟨.deleted, "/a/b.txt"⟩, ⟨.created, "/a/c.txt"⟩, ⟨.changed, extractParentPath "/a/b.txt"⟩] ∧
    (rename okServer true "/a/b.txt" "/d/b.txt" {}).2.2 =
      [⟨.deleted, "/a/b.txt"⟩, ⟨.created, "/d/b.txt"⟩, ⟨.changed, extractParentPath "/a/b.txt"⟩,
       ⟨.changed, extractParentPath "/d/b.txt"⟩] :=
  ⟨⟨by rfl, by decide, by rfl, by decide⟩,
   (c10_rename_events okServer "/a/b.txt" "/a/c.txt" {} (by rfl)).1 (by decide),
   (c10_rename_events okServer "/a/b.txt" "/d/b.txt" {} (by rfl)).2 (by decide)⟩

/-! ### Claims C5 and C9 -/

/-- Deleting a key from an empty table is a no-op. -/
theorem mapDelete_nil {α : Type} (k : String) :
    mapDelete k ([] : List (String × α)) = [] := rfl

/-- Deleting a key drops a leading binding of that key. -/
theorem mapDelete_cons_self {α : Type} (k : String) (v : α) (l : List (String × α)) :
    mapDelete k ((k, v) :: l) = mapDelete k l := by simp [mapDelete]

/-- C5: two concurrent cached GET callers for the same url, the second
arriving while the first's call is in flight and starting from an empty
cache and pending table.  When the shared call resolves, the network is hit
exactly once (`calls = 1`), both callers receive the same resolved
response, and the pending registration is gone at the end; when it rejects,
the first caller rethrows the error and the pending table is likewise empty
once both callers have completed (the second caller retries with its own
call per line 929) — in either resume order. -/
theorem c5_dedupe_single_flight (url : String) (now cacheTimeout : Int) (r : Resp)
    (e : JsError) (o2 : Except JsError Resp) (aFirst : Bool) (d0 : ℚ) :
    ((dedupeScenario true url now cacheTimeout (.ok r) o2 aFirst {} d0).final.calls = 1 ∧
     (dedupeScenario true url now cacheTimeout (.ok r) o2 aFirst {} d0).resA = .ok r ∧
     (dedupeScenario true url now cacheTimeout (.ok r) o2 aFirst {} d0).resB = .ok r ∧
     (dedupeScenario true url now cacheTimeout (.ok r) o2 aFirst {} d0).final.pending = []) ∧
    ((dedupeScenario true url now cacheTimeout (.error e) o2 aFirst {} d0).resA = .error e ∧
     (dedupeScenario true url now cacheTimeout (.error e) o2 aFirst {} d0).final.pending = []) := by
  constructor
  · obtain ⟨st?, data⟩ := r
    cases st? with
    | none =>
        simp [dedupeScenario, mrwcStart, mrwcFinish, getFromCache, getCacheKey, mapGet, mapSet,
          mapDelete_cons_self, mapDelete_nil, setCache, adaptiveRateLimit]
    | some s =>
        by_cases hs : s < 300 <;>
          simp [dedupeScenario, mrwcStart, mrwcFinish, getFromCache, getCacheKey, mapGet, mapSet,
            mapDelete_cons_self, mapDelete_nil, setCache, adaptiveRateLimit, hs]
  · cases aFirst <;>
      cases o2 <;>
        simp [dedupeScenario, mrwcStart, mrwcFinish, getFromCache, getCacheKey, mapGet, mapSet,
          mapDelete_cons_self, mapDelete_nil, setCache, adaptiveRateLimit] <;>
      (split <;> simp [mapDelete_cons_self, mapDelete_nil])

/-- C9: with caching disabled the same two-caller GET scenario — from any
starting cache and pending table — neither consults nor touches the cache
or the pending table, and each caller issues its own network call (two
calls total) and receives exactly its own call outcome. -/
theorem c9_caching_disabled_bypass (st0 : MrwcState) (url : String)
    (now cacheTimeout : Int) (o o2 : Except JsError Resp) (aFirst : Bool) (d0 : ℚ) :
    (dedupeScenario false url now cacheTimeout o o2 aFirst st0 d0).final.cache = st0.cache ∧
    (dedupeScenario false url now cacheTimeout o o2 aFirst st0 d0).final.pending = st0.pending ∧
    (dedupeScenario false url now cacheTimeout o o2 aFirst st0 d0).final.calls = st0.calls + 2 ∧
    (dedupeScenario false url now cacheTimeout o o2 aFirst st0 d0).resA = o ∧
    (dedupeScenario false url now cacheTimeout o o2 aFirst st0 d0).resB = o2 := by
  cases aFirst <;> cases o <;> cases o2 <;>
    simp [dedupeScenario, mrwcStart, mrwcFinish, getCacheKey, adaptiveRateLimit]

end JfeModel
